import Mathlib

/-!
Shallow embedding of `src/touch/touch.cpp`: the configuration-file parser
(`parse_config_file`), the placeholder resolver (`convert_option`) and the
rendering logic of `main` (option gathering, merging, comment prefixing and
raw-code emission).  Strings are modelled as Lean `String`s (sequences of
characters); C++ `size_t` arithmetic is modelled with explicit wrap-around
modulo `2 ^ 64` where the source can underflow.  File I/O is modelled by
passing the list of configuration lines explicitly; the current date and the
target filename are parameters.
-/

/-- Characters written via their code points to keep the file free of quote
character literals: the double quote. -/
def dquoteChar : Char := Char.ofNat 34

/-- The single quote character. -/
def squoteChar : Char := Char.ofNat 39

/-- The horizontal tab character. -/
def tabChar : Char := Char.ofNat 9

/-- Whitespace as used by the source's trimming calls
(`find_first_not_of(" \t")`): space or tab. -/
def isWSChar (c : Char) : Bool := c == ' ' || c == tabChar

/-- Trim leading and trailing spaces/tabs, mirroring the two `erase` calls at
the top of the parse loop (touch.cpp lines 235-236). -/
def trimWS (s : String) : String :=
  String.mk ((((s.data.dropWhile isWSChar).reverse).dropWhile isWSChar).reverse)

/-- Length of a string in characters (`std::string::size`). -/
def strLen (s : String) : Nat := s.data.length

/-- Drop the first `n` characters (`substr(n)` when `n ≤ size`). -/
def strDrop (s : String) (n : Nat) : String := String.mk (s.data.drop n)

/-- `std::string::substr(pos, count)`: take `count` characters starting at
`pos`, clamping `count` to what is available (the source only calls this with
`pos ≤ size`). -/
def cppSubstr (s : String) (pos count : Nat) : String :=
  String.mk ((s.data.drop pos).take count)

/-- `size_t` subtraction: wraps modulo `2 ^ 64`, so `1 - 2` is huge.  Both
arguments are assumed `< 2 ^ 64` (string lengths). -/
def sizeSub (a b : Nat) : Nat := (a + 2 ^ 64 - b) % 2 ^ 64

/-- `std::string::front` (the source always guards with a non-empty check). -/
def strFront (s : String) : Char := s.data.headD (Char.ofNat 0)

/-- `std::string::back` (the source always guards with a non-empty check). -/
def strBack (s : String) : Char := s.data.getLastD (Char.ofNat 0)

/-- Does `needle` occur as a prefix of `hay` (character lists)? -/
def startsSeq : List Char → List Char → Bool
  | [], _ => true
  | _ :: _, [] => false
  | a :: as, b :: bs => a == b && startsSeq as bs

/-- `line.find(pat) == 0`, i.e. the string starts with the pattern. -/
def startsWithStr (s pat : String) : Bool := startsSeq pat.data s.data

/-- `line.find(c, start)`: index of the first occurrence of `c` at or after
position `start`, or `none` (C++ `npos`). -/
def findCharFrom (s : String) (c : Char) (start : Nat) : Option Nat :=
  match (s.data.drop start).findIdx? (fun x => x == c) with
  | none => none
  | some i => some (start + i)

/-- Lookup in an association list (models `unordered_map::find`; only lookup
observes the map, so list order is irrelevant). -/
def alookup (k : String) : List (String × α) → Option α
  | [] => none
  | (k', v) :: rest => if k' = k then some v else alookup k rest

/-- `map[k] = v`: overwrite the entry for `k`, inserting it if absent. -/
def aset (k : String) (v : α) : List (String × α) → List (String × α)
  | [] => [(k, v)]
  | (k', v') :: rest => if k' = k then (k, v) :: rest else (k', v') :: aset k v rest

/-- An option line as stored by the parser (struct `option`, touch.cpp
lines 53-56). -/
structure option where
  identifier : String
  is_prepend : Bool
deriving Repr, DecidableEq

/-- `if (type_options_map.find(t) == end) type_options_map[t] = {}`:
create an empty group for `t` when absent (touch.cpp lines 271-273). -/
def ensureGroup (k : String) (m : List (String × List option)) :
    List (String × List option) :=
  if (alookup k m).isSome then m else m ++ [(k, [])]

/-- `type_options_map[k].push_back o`: append to the group for `k`, creating
the group when absent. -/
def pushOpt (m : List (String × List option)) (k : String) (o : option) :
    List (String × List option) :=
  match m with
  | [] => [(k, [o])]
  | (k', v) :: rest =>
      if k' = k then (k', v ++ [o]) :: rest else (k', v) :: pushOpt rest k o

/-- The parser's state: the three global containers of touch.cpp
(`variable_map`, `type_options_map`, `raw_code`), the three loop-local
variables of `parse_config_file` (`current_type`, `is_prepend`, `is_raw`),
and the log of `ERROR_PRINT` messages emitted so far. -/
structure ParseState where
  variable_map : List (String × String)
  type_options_map : List (String × List option)
  raw_code : List String
  current_type : String
  is_prepend : Bool
  is_raw : Bool
  errors : List String
deriving Repr, DecidableEq

/-- The state at the top of `parse_config_file`: empty globals, no current
type, both mode flags false, nothing logged. -/
def initState : ParseState :=
  { variable_map := [], type_options_map := [], raw_code := [],
    current_type := "", is_prepend := false, is_raw := false, errors := [] }

/-- One iteration of the parse loop on an already trimmed, non-empty line
(touch.cpp lines 241-305).  `ext` is the target file extension. -/
def processTrimmed (ext : String) (st : ParseState) (l : String) : ParseState :=
  if startsWithStr l "SET " then
    match findCharFrom l '=' 4 with
    | none =>
        { st with errors := st.errors ++ ["Error: Invalid SET command syntax: " ++ l] }
    | some equal_pos =>
        let var_name := trimWS (cppSubstr l 4 (equal_pos - 4))
        let v0 := trimWS (strDrop l (equal_pos + 1))
        let var_value :=
          if v0 ≠ "" ∧ strFront v0 = dquoteChar ∧ strBack v0 = dquoteChar then
            cppSubstr v0 1 (sizeSub (strLen v0) 2)
          else v0
        { st with variable_map := aset ("<" ++ var_name ++ ">") var_value st.variable_map }
  else if startsWithStr l "<type " then
    let t := cppSubstr l 6 (sizeSub (strLen l) 7)
    { st with current_type := t, is_prepend := false, is_raw := false,
              type_options_map := ensureGroup t st.type_options_map }
  else if startsWithStr l "<prepend>" then
    { st with is_prepend := true }
  else if startsWithStr l "<append>" then
    { st with is_prepend := false }
  else if startsWithStr l "<raw>" then
    { st with is_raw := true }
  else
    if st.current_type = "" then
      { st with errors :=
          st.errors ++ ["Error: Option " ++ l ++ " is not inside a type block"] }
    else if st.is_raw = true ∧ st.current_type = ext then
      { st with raw_code := st.raw_code ++ [l] }
    else
      { st with type_options_map :=
          pushOpt st.type_options_map st.current_type ⟨l, st.is_prepend⟩ }

/-- One iteration of the parse loop on a raw input line: trim, skip if empty,
otherwise classify (touch.cpp lines 233-306). -/
def processLine (ext : String) (st : ParseState) (line : String) : ParseState :=
  let l := trimWS line
  if l = "" then st else processTrimmed ext st l

/-- Run the parse loop from a given state over the remaining lines. -/
def parse_from (ext : String) (st : ParseState) (lines : List String) : ParseState :=
  lines.foldl (processLine ext) st

/-- `parse_config_file`: read all lines of the configuration file starting
from empty global state (touch.cpp lines 222-307).  An unopenable or empty
file is the empty line list. -/
def parse_config_file (lines : List String) (ext : String) : ParseState :=
  parse_from ext initState lines

/-- `convert_option` (touch.cpp lines 192-207): `<date>` and `<file>` are
expanded first; otherwise an identifier found in the variable map resolves to
its stored value, and anything else is returned unchanged.  `today` stands
for `get_current_date()`. -/
def convert_option (vm : List (String × String)) (today filename opt : String) : String :=
  if opt = "<date>" then "DATE: " ++ today
  else if opt = "<file>" then "FILE: " ++ filename
  else
    match alookup opt vm with
    | some v => v
    | none => opt

/-- The static extension-to-comment-token table `comment_str_map`
(touch.cpp lines 84-136). -/
def comment_str_map : List (String × String) :=
  [(".c", "// "), (".cpp", "// "), (".h", "// "), (".hpp", "// "),
   (".py", "# "), (".java", "// "), (".js", "// "), (".ts", "// "),
   (".rb", "# "), (".go", "// "), (".rs", "// "), (".cs", "// "),
   (".php", "// "), (".swift", "// "), (".kt", "// "), (".scala", "// "),
   (".sh", "# "), (".pl", "# "), (".r", "# "), (".lua", "-- "),
   (".sql", "-- "), (".asm", "; "), (".s", "; "), (".vb", "' "),
   (".vba", "' "), (".m", "// "), (".mm", "// "), (".erl", "% "),
   (".ex", "# "), (".exs", "# "), (".hs", "-- "), (".lisp", ";; "),
   (".clj", ";; "), (".scm", ";; "), (".f90", "!"), (".f95", "!"),
   (".f03", "!"), (".ada", "-- "), (".pas", "// "), (".dart", "// "),
   (".coffee", "# "), (".groovy", "// "), (".nim", "# "), (".rkt", "; "),
   (".vhd", "-- "), (".vhdl", "-- "), (".pro", "% "), (".sml", "(* "),
   (".ml", "(* "), (".bat", "REM "), (".ps1", "# ")]

/-- Option gathering and merging of `main` (touch.cpp lines 410-440): the
target extension's group is split into prepend and append lists preserving
order, the `.all` group is taken whole, and the merged order is
prepend ++ default ++ append. -/
def gather_all_options (m : List (String × List option)) (ext : String) :
    List String :=
  let g := (alookup ext m).getD []
  ((g.filter (fun o => o.is_prepend)).map (fun o => o.identifier))
    ++ (((alookup ".all" m).getD []).map (fun o => o.identifier))
    ++ ((g.filter (fun o => !o.is_prepend)).map (fun o => o.identifier))

/-- The option part of the file message (touch.cpp lines 442-452): each merged
option is resolved and emitted as one comment-prefixed line. -/
def options_message (st : ParseState) (ext filename today : String) : String :=
  let comment_str := (alookup ext comment_str_map).getD "// "
  (gather_all_options st.type_options_map ext).foldl
    (fun acc opt => acc ++ comment_str ++ convert_option st.variable_map today filename opt ++ "\n")
    ""

/-- The quote strip applied to a raw line before the escape comparison
(touch.cpp lines 461-464): when the line starts with a double or single
quote, `substr(1, size - 2)` is taken (with `size_t` underflow on a
one-character line). -/
def strip_quotes_once (line : String) : String :=
  if line ≠ "" ∧ (strFront line = dquoteChar ∨ strFront line = squoteChar) then
    cppSubstr line 1 (sizeSub (strLen line) 2)
  else line

/-- What one raw line contributes to the file message (touch.cpp lines
465-470): a bare newline when the stripped copy equals the two-character
sequence backslash-n, otherwise the original line plus a newline. -/
def raw_line_out (line : String) : String :=
  if strip_quotes_once line = "\\n" then "\n" else line ++ "\n"

/-- The full file message built by `main` (touch.cpp lines 446-472): the
option lines, then — only when raw lines were captured — one blank separator
line followed by the raw-line outputs. -/
def build_file_message (st : ParseState) (ext filename today : String) : String :=
  let fm := options_message st ext filename today
  if st.raw_code.isEmpty then fm
  else st.raw_code.foldl (fun acc line => acc ++ raw_line_out line) (fm ++ "\n")

/-- Index of the last occurrence of `c` in a character list
(`find_last_of`). -/
def rfindIdx (c : Char) (l : List Char) : Option Nat :=
  match l.reverse.findIdx? (fun x => x == c) with
  | none => none
  | some i => some (l.length - 1 - i)

/-- Extension extraction in `main` (touch.cpp lines 392-393): everything from
the last dot on, or the empty string when there is no dot. -/
def getExtension (filename : String) : String :=
  match rfindIdx '.' filename.data with
  | none => ""
  | some i => strDrop filename i

/-- Concatenation of the images of a function over a list, used to state the
raw-block emission in closed form. -/
def concatMapStr (f : α → String) : List α → String
  | [] => ""
  | a :: as => f a ++ concatMapStr f as

/-- Does `needle` occur as a contiguous substring of `hay`? -/
def occursIn (needle : List Char) : List Char → Bool
  | [] => startsSeq needle []
  | b :: bs => startsSeq needle (b :: bs) || occursIn needle bs

/-- The section-8 scenario configuration from the specification. -/
def scenario_config : List String :=
  ["<type .py>", "<prepend>", "<date>", "<type .py>", "<append>",
   "SET author = \"Alice\"", "author: <author>"]

/-- The `.all` raw scenario configuration from the specification. -/
def allraw_config : List String :=
  ["<type .all>", "<raw>", "\\n"]

theorem data_append (a b : String) : (a ++ b).data = a.data ++ b.data := rfl

theorem str_append_assoc (a b c : String) : a ++ b ++ c = a ++ (b ++ c) := by
  apply String.ext
  simp [data_append]

theorem str_append_empty (s : String) : s ++ "" = s := by
  apply String.ext
  simp [data_append]

theorem foldl_append_concatMapStr (f : α → String) (xs : List α) (init : String) :
    xs.foldl (fun acc a => acc ++ f a) init = init ++ concatMapStr f xs := by
  induction xs generalizing init with
  | nil => simp [concatMapStr, str_append_empty]
  | cons a as ih => simp [concatMapStr, ih, str_append_assoc]

theorem ne_append_singleton (xs : List α) (a : α) : xs ≠ xs ++ [a] := by
  intro h
  have hlen := congrArg List.length h
  simp at hlen

theorem alookup_append_right (k : String) (m1 m2 : List (String × α))
    (h : alookup k m1 = none) : alookup k (m1 ++ m2) = alookup k m2 := by
  induction m1 with
  | nil => rfl
  | cons p rest ih =>
    obtain ⟨k', v⟩ := p
    by_cases hk : k' = k
    · simp [alookup, hk] at h
    · simp only [List.cons_append, alookup, if_neg hk] at h ⊢
      exact ih h

theorem alookup_ensureGroup_self (k : String) (m : List (String × List option)) :
    alookup k (ensureGroup k m) = some ((alookup k m).getD []) := by
  unfold ensureGroup
  cases h : alookup k m with
  | some v => simp [h]
  | none =>
    simp only [h, Option.isSome_none, Bool.false_eq_true, if_false, Option.getD_none]
    rw [alookup_append_right k m _ h]
    simp [alookup]

theorem alookup_pushOpt_self (m : List (String × List option)) (k : String) (o : option) :
    alookup k (pushOpt m k o) = some ((alookup k m).getD [] ++ [o]) := by
  induction m with
  | nil => simp [pushOpt, alookup]
  | cons p rest ih =>
    obtain ⟨k', v⟩ := p
    by_cases hk : k' = k
    · simp [pushOpt, hk, alookup]
    · simp [pushOpt, hk, alookup, ih]

theorem filter_length_split (p : α → Bool) (l : List α) :
    (l.filter p).length + (l.filter (fun x => !p x)).length = l.length := by
  induction l with
  | nil => rfl
  | cons a as ih =>
    by_cases h : p a <;> simp [h] <;> omega

/-- C1: counterexample.  The claim says a `SET name = value` line followed by
an option line that merely CONTAINS `<name>` renders with `value` substituted,
and that the section-8 scenario renders `# author: Alice`.  On the code,
`convert_option` substitutes only when the whole option equals the map key:
the scenario's option `author: <author>` contains `<author>` (first conjunct),
yet the rendered output does not contain `Alice` anywhere (second conjunct)
and its second line is `# author: <author>` (third conjunct). -/
theorem C1_counterexample :
    occursIn "<author>".data "author: <author>".data = true
    ∧ occursIn "Alice".data
        (build_file_message (parse_config_file scenario_config ".py") ".py" "test.py"
          "2026-10-11").data = false
    ∧ build_file_message (parse_config_file scenario_config ".py") ".py" "test.py" "2026-10-11"
        = "# DATE: 2026-10-11\n# author: <author>\n" := by
  decide

/-- C1 (amended): substitution applies only when the option line is exactly
the placeholder: any identifier stored in the variable map (other than the
built-ins `<date>` and `<file>`) resolves to its stored value, with quotes
stripped once at `SET` time; an option line that merely contains a placeholder
is emitted unchanged.  For the section-8 scenario with target `.py` the
rendered lines are `# DATE: <today>` followed by `# author: <author>`. -/
theorem C1_amended (vm : List (String × String)) (today fn opt v : String)
    (hv : alookup opt vm = some v) (hd : opt ≠ "<date>") (hf : opt ≠ "<file>") :
    convert_option vm today fn opt = v
    ∧ alookup "<author>" (parse_config_file scenario_config ".py").variable_map = some "Alice"
    ∧ build_file_message (parse_config_file scenario_config ".py") ".py" fn today
        = "# DATE: " ++ today ++ "\n# author: <author>\n" := by
  refine ⟨?_, by decide, ?_⟩
  · simp [convert_option, hd, hf, hv]
  · have hst : parse_config_file scenario_config ".py" =
        { variable_map := [("<author>", "Alice")],
          type_options_map := [(".py", [⟨"<date>", true⟩, ⟨"author: <author>", false⟩])],
          raw_code := [], current_type := ".py", is_prepend := false, is_raw := false,
          errors := [] } := by decide
    rw [hst]
    apply String.ext
    simp [build_file_message, options_message, gather_all_options, alookup, comment_str_map,
          convert_option, data_append]

/-- C1 witness: the amended theorem applied at a concrete variable map,
identifier, date and filename. -/
theorem C1_amended_witness :
    convert_option [("<k>", "v")] "2026-10-11" "t.py" "<k>" = "v"
    ∧ alookup "<author>" (parse_config_file scenario_config ".py").variable_map = some "Alice"
    ∧ build_file_message (parse_config_file scenario_config ".py") ".py" "t.py" "2026-10-11"
        = "# DATE: " ++ "2026-10-11" ++ "\n# author: <author>\n" :=
  C1_amended [("<k>", "v")] "2026-10-11" "t.py" "<k>" "v" (by decide) (by decide) (by decide)

/-- C2: counterexample.  The claim quantifies over EVERY target extension, but
a file named `foo.all` has extension `.all`, and then the `<type .all>` group
DOES equal the target extension: the raw line is captured and a raw block (a
blank separator plus a blank line for the backslash-n escape) is emitted. -/
theorem C2_counterexample :
    getExtension "foo.all" = ".all"
    ∧ (parse_config_file allraw_config ".all").raw_code = ["\\n"]
    ∧ build_file_message (parse_config_file allraw_config ".all") ".all" "foo.all" "today"
        = "\n\n"
    ∧ build_file_message (parse_config_file allraw_config ".all") ".all" "foo.all" "today"
        ≠ options_message (parse_config_file allraw_config ".all") ".all" "foo.all" "today" := by
  decide

/-- C2 (amended): for every target extension OTHER THAN `.all` itself, the
config `<type .all>`, `<raw>`, backslash-n captures no raw lines (raw capture
requires the current type group to equal the target extension), so the
rendered output is the option part alone, with no raw block. -/
theorem C2_amended (ext : String) (h : ext ≠ ".all") (fn today : String) :
    (parse_config_file allraw_config ext).raw_code = []
    ∧ build_file_message (parse_config_file allraw_config ext) ext fn today
        = options_message (parse_config_file allraw_config ext) ext fn today := by
  have h' : (".all" : String) ≠ ext := Ne.symm h
  have hst : parse_config_file allraw_config ext =
      { variable_map := [], type_options_map := [(".all", [⟨"\\n", false⟩])],
        raw_code := [], current_type := ".all", is_prepend := false, is_raw := true,
        errors := [] } := by
    show processLine ext (processLine ext (processLine ext initState "<type .all>") "<raw>")
        "\\n" = _
    have h2 : processLine ext (processLine ext initState "<type .all>") "<raw>" =
        { variable_map := [], type_options_map := [(".all", [])], raw_code := [],
          current_type := ".all", is_prepend := false, is_raw := true, errors := [] } := rfl
    rw [h2]
    simp [processLine, processTrimmed, trimWS, isWSChar, tabChar, startsWithStr, startsSeq,
          h', pushOpt]
  rw [hst]
  exact ⟨rfl, rfl⟩

/-- C2 witness: the amended theorem applied at the concrete extension `.py`. -/
theorem C2_amended_witness :
    (parse_config_file allraw_config ".py").raw_code = []
    ∧ build_file_message (parse_config_file allraw_config ".py") ".py" "f.py" "today"
        = options_message (parse_config_file allraw_config ".py") ".py" "f.py" "today" :=
  C2_amended ".py" (by decide) "f.py" "today"

/-- C3: for any type-group map and target extension, the merged option
sequence is exactly the target group's prepend-tagged options in insertion
order, then the whole `.all` group in insertion order (never split by its own
tags), then the target group's append-tagged options in insertion order; its
length is N + M + K, and N plus M exhausts the target group. -/
theorem C3_merge_order (m : List (String × List option)) (ext : String) :
    gather_all_options m ext
      = ((((alookup ext m).getD []).filter (fun o => o.is_prepend)).map
            (fun o => o.identifier))
        ++ (((alookup ".all" m).getD []).map (fun o => o.identifier))
        ++ ((((alookup ext m).getD []).filter (fun o => !o.is_prepend)).map
              (fun o => o.identifier))
    ∧ (gather_all_options m ext).length
      = (((alookup ext m).getD []).filter (fun o => o.is_prepend)).length
        + (((alookup ext m).getD []).filter (fun o => !o.is_prepend)).length
        + ((alookup ".all" m).getD []).length
    ∧ (((alookup ext m).getD []).filter (fun o => o.is_prepend)).length
        + (((alookup ext m).getD []).filter (fun o => !o.is_prepend)).length
      = ((alookup ext m).getD []).length := by
  refine ⟨rfl, ?_, filter_length_split _ _⟩
  simp [gather_all_options]
  omega

/-- C4: during parsing, a trimmed non-directive, non-empty line is appended
verbatim to the raw-lines list if and only if raw mode is active and a type
group is open (`current_type` non-empty, since an option line outside any
type block is discarded with an error) and that group equals the target
extension; in that case it is not stored as an option and the rest of the
state is untouched. -/
theorem C4_raw_capture_iff (ext : String) (st : ParseState) (line : String)
    (h0 : trimWS line ≠ "")
    (h1 : startsWithStr (trimWS line) "SET " = false)
    (h2 : startsWithStr (trimWS line) "<type " = false)
    (h3 : startsWithStr (trimWS line) "<prepend>" = false)
    (h4 : startsWithStr (trimWS line) "<append>" = false)
    (h5 : startsWithStr (trimWS line) "<raw>" = false) :
    ((processLine ext st line).raw_code = st.raw_code ++ [trimWS line]
        ↔ st.current_type ≠ "" ∧ st.is_raw = true ∧ st.current_type = ext)
    ∧ (st.current_type ≠ "" → st.is_raw = true → st.current_type = ext →
        (processLine ext st line).type_options_map = st.type_options_map
        ∧ (processLine ext st line).variable_map = st.variable_map
        ∧ (processLine ext st line).errors = st.errors) := by
  have hpl : processLine ext st line = processTrimmed ext st (trimWS line) := by
    simp [processLine, h0]
  rw [hpl]
  simp only [processTrimmed, h1, h2, h3, h4, h5, Bool.false_eq_true, if_false]
  by_cases hc : st.current_type = ""
  · rw [if_pos hc]
    constructor
    · constructor
      · intro hr
        exact absurd hr (ne_append_singleton _ _)
      · rintro ⟨hne, -, -⟩
        exact absurd hc hne
    · rintro hne - -
      exact absurd hc hne
  · rw [if_neg hc]
    by_cases hrw : st.is_raw = true ∧ st.current_type = ext
    · rw [if_pos hrw]
      refine ⟨?_, fun _ _ _ => ⟨rfl, rfl, rfl⟩⟩
      constructor
      · intro _
        exact ⟨hc, hrw.1, hrw.2⟩
      · intro _
        rfl
    · rw [if_neg hrw]
      constructor
      · constructor
        · intro hr
          exact absurd hr (ne_append_singleton _ _)
        · rintro ⟨-, hraw, hext⟩
          exact absurd ⟨hraw, hext⟩ hrw
      · rintro - hraw hext
        exact absurd ⟨hraw, hext⟩ hrw

/-- C4 witness: a raw-mode state whose open group `.py` equals the target
extension captures the line `hello` verbatim and leaves the option map,
variable map and error log untouched. -/
theorem C4_raw_capture_iff_witness :
    (processLine ".py"
        { variable_map := [], type_options_map := [(".py", [])], raw_code := [],
          current_type := ".py", is_prepend := false, is_raw := true, errors := [] }
        "hello").raw_code = ([] : List String) ++ [trimWS "hello"]
    ∧ (processLine ".py"
        { variable_map := [], type_options_map := [(".py", [])], raw_code := [],
          current_type := ".py", is_prepend := false, is_raw := true, errors := [] }
        "hello").type_options_map = [(".py", [])]
    ∧ (processLine ".py"
        { variable_map := [], type_options_map := [(".py", [])], raw_code := [],
          current_type := ".py", is_prepend := false, is_raw := true, errors := [] }
        "hello").variable_map = []
    ∧ (processLine ".py"
        { variable_map := [], type_options_map := [(".py", [])], raw_code := [],
          current_type := ".py", is_prepend := false, is_raw := true, errors := [] }
        "hello").errors = [] :=
  have h := C4_raw_capture_iff ".py"
    { variable_map := [], type_options_map := [(".py", [])], raw_code := [],
      current_type := ".py", is_prepend := false, is_raw := true, errors := [] }
    "hello" (by decide) (by decide) (by decide) (by decide) (by decide) (by decide)
  ⟨h.1.mpr ⟨by decide, rfl, rfl⟩, h.2 (by decide) rfl rfl⟩

/-- C5: when the raw-lines list is non-empty, the rendered message is the
option part, then exactly one blank separator line, then for each raw line
its contribution `raw_line_out`: a bare newline when the once-quote-stripped
copy (`strip_quotes_once`, which drops one leading double/single quote and
the final character, with `size_t` underflow on one-character lines) equals
the two-character sequence backslash-n, and otherwise the original unstripped
line followed by a newline. -/
theorem C5_raw_block_emission (st : ParseState) (ext fn today : String)
    (h : st.raw_code ≠ []) :
    build_file_message st ext fn today
      = options_message st ext fn today ++ "\n" ++ concatMapStr raw_line_out st.raw_code := by
  have hne : st.raw_code.isEmpty = false := by
    cases hr : st.raw_code with
    | nil => exact absurd hr h
    | cons a as => rfl
  simp [build_file_message, hne, foldl_append_concatMapStr]

/-- C5 witness: a state with one captured raw line. -/
theorem C5_raw_block_emission_witness :
    build_file_message
        { variable_map := [], type_options_map := [], raw_code := ["x"],
          current_type := ".py", is_prepend := false, is_raw := true, errors := [] }
        ".py" "f.py" "today"
      = options_message
          { variable_map := [], type_options_map := [], raw_code := ["x"],
            current_type := ".py", is_prepend := false, is_raw := true, errors := [] }
          ".py" "f.py" "today"
        ++ "\n" ++ concatMapStr raw_line_out ["x"] :=
  C5_raw_block_emission
    { variable_map := [], type_options_map := [], raw_code := ["x"],
      current_type := ".py", is_prepend := false, is_raw := true, errors := [] }
    ".py" "f.py" "today" (by decide)

/-- C6: a `<type X>` directive (a trimmed line starting with `<type `, whose
group name is the text between `<type ` and the final character) resets the
prepend flag and the raw flag to false and sets the current type; when the
group already exists its previously inserted options are preserved (and an
absent group is created empty), and a subsequent non-directive option line is
appended to the reopened group tagged with append placement (prepend flag
false). -/
theorem C6_type_directive (ext : String) (st : ParseState) (line : String)
    (hS : startsWithStr (trimWS line) "SET " = false)
    (hT : startsWithStr (trimWS line) "<type " = true) :
    (processLine ext st line).is_prepend = false
    ∧ (processLine ext st line).is_raw = false
    ∧ (processLine ext st line).current_type
        = cppSubstr (trimWS line) 6 (sizeSub (strLen (trimWS line)) 7)
    ∧ alookup (cppSubstr (trimWS line) 6 (sizeSub (strLen (trimWS line)) 7))
        (processLine ext st line).type_options_map
        = some ((alookup (cppSubstr (trimWS line) 6 (sizeSub (strLen (trimWS line)) 7))
                  st.type_options_map).getD [])
    ∧ (∀ l2 : String, trimWS l2 = l2 → l2 ≠ "" →
        startsWithStr l2 "SET " = false → startsWithStr l2 "<type " = false →
        startsWithStr l2 "<prepend>" = false → startsWithStr l2 "<append>" = false →
        startsWithStr l2 "<raw>" = false →
        cppSubstr (trimWS line) 6 (sizeSub (strLen (trimWS line)) 7) ≠ "" →
        alookup (cppSubstr (trimWS line) 6 (sizeSub (strLen (trimWS line)) 7))
          (processLine ext (processLine ext st line) l2).type_options_map
          = some ((alookup (cppSubstr (trimWS line) 6 (sizeSub (strLen (trimWS line)) 7))
                    st.type_options_map).getD [] ++ [⟨l2, false⟩])) := by
  have hl : trimWS line ≠ "" := by
    intro he
    rw [he] at hT
    exact absurd hT (by decide)
  have hpl : processLine ext st line = processTrimmed ext st (trimWS line) := by
    simp [processLine, hl]
  have hred : processTrimmed ext st (trimWS line)
      = { st with
          current_type := cppSubstr (trimWS line) 6 (sizeSub (strLen (trimWS line)) 7),
          is_prepend := false, is_raw := false,
          type_options_map :=
            ensureGroup (cppSubstr (trimWS line) 6 (sizeSub (strLen (trimWS line)) 7))
              st.type_options_map } := by
    simp only [processTrimmed, hS, hT, Bool.false_eq_true, if_false, if_true]
  rw [hpl, hred]
  refine ⟨rfl, rfl, rfl, alookup_ensureGroup_self _ _, ?_⟩
  intro l2 htr hne k1 k2 k3 k4 k5 htne
  have hpl2 : processLine ext
      { st with
        current_type := cppSubstr (trimWS line) 6 (sizeSub (strLen (trimWS line)) 7),
        is_prepend := false, is_raw := false,
        type_options_map :=
          ensureGroup (cppSubstr (trimWS line) 6 (sizeSub (strLen (trimWS line)) 7))
            st.type_options_map } l2
      = { st with
          current_type := cppSubstr (trimWS line) 6 (sizeSub (strLen (trimWS line)) 7),
          is_prepend := false, is_raw := false,
          type_options_map :=
            pushOpt
              (ensureGroup (cppSubstr (trimWS line) 6 (sizeSub (strLen (trimWS line)) 7))
                st.type_options_map)
              (cppSubstr (trimWS line) 6 (sizeSub (strLen (trimWS line)) 7))
              ⟨l2, false⟩ } := by
    simp only [processLine, htr, if_neg hne, processTrimmed, k1, k2, k3, k4, k5,
               Bool.false_eq_true, if_false, if_neg htne]
    simp
  rw [hpl2]
  show alookup _ (pushOpt _ _ _) = _
  rw [alookup_pushOpt_self, alookup_ensureGroup_self]
  simp

/-- C6 witness: reopening the existing `.py` group (which already holds one
option) preserves that option, resets both flags, and the following plain
line `b` is appended to the group with the append tag. -/
theorem C6_type_directive_witness :
    (processLine ".py"
        { variable_map := [], type_options_map := [(".py", [⟨"a", true⟩])], raw_code := [],
          current_type := ".py", is_prepend := true, is_raw := true, errors := [] }
        "<type .py>").is_prepend = false
    ∧ (processLine ".py"
        { variable_map := [], type_options_map := [(".py", [⟨"a", true⟩])], raw_code := [],
          current_type := ".py", is_prepend := true, is_raw := true, errors := [] }
        "<type .py>").is_raw = false
    ∧ (processLine ".py"
        { variable_map := [], type_options_map := [(".py", [⟨"a", true⟩])], raw_code := [],
          current_type := ".py", is_prepend := true, is_raw := true, errors := [] }
        "<type .py>").current_type
        = cppSubstr (trimWS "<type .py>") 6 (sizeSub (strLen (trimWS "<type .py>")) 7)
    ∧ alookup (cppSubstr (trimWS "<type .py>") 6 (sizeSub (strLen (trimWS "<type .py>")) 7))
        (processLine ".py"
          { variable_map := [], type_options_map := [(".py", [⟨"a", true⟩])], raw_code := [],
            current_type := ".py", is_prepend := true, is_raw := true, errors := [] }
          "<type .py>").type_options_map
        = some ((alookup
                  (cppSubstr (trimWS "<type .py>") 6 (sizeSub (strLen (trimWS "<type .py>")) 7))
                  [(".py", [(⟨"a", true⟩ : option)])]).getD [])
    ∧ alookup (cppSubstr (trimWS "<type .py>") 6 (sizeSub (strLen (trimWS "<type .py>")) 7))
        (processLine ".py"
          (processLine ".py"
            { variable_map := [], type_options_map := [(".py", [⟨"a", true⟩])], raw_code := [],
              current_type := ".py", is_prepend := true, is_raw := true, errors := [] }
            "<type .py>") "b").type_options_map
        = some ((alookup
                  (cppSubstr (trimWS "<type .py>") 6 (sizeSub (strLen (trimWS "<type .py>")) 7))
                  [(".py", [(⟨"a", true⟩ : option)])]).getD [] ++ [⟨"b", false⟩]) :=
  have h := C6_type_directive ".py"
    { variable_map := [], type_options_map := [(".py", [⟨"a", true⟩])], raw_code := [],
      current_type := ".py", is_prepend := true, is_raw := true, errors := [] }
    "<type .py>" (by decide) (by decide)
  ⟨h.1, h.2.1, h.2.2.1, h.2.2.2.1,
    h.2.2.2.2 "b" (by decide) (by decide) (by decide) (by decide) (by decide) (by decide)
      (by decide) (by decide)⟩

/-- C7: an unreadable or empty configuration file (the parser returns before
processing any line, modelled by the empty line list) leaves the state of the
parse completely empty — no variables, no type groups, no raw lines, no
further errors — and the rendered text block is the empty string, so the
target file is created with empty contents. -/
theorem C7_empty_config_render (ext fn today : String) :
    parse_config_file [] ext = initState
    ∧ (parse_config_file [] ext).variable_map = []
    ∧ (parse_config_file [] ext).type_options_map = []
    ∧ (parse_config_file [] ext).raw_code = []
    ∧ (parse_config_file [] ext).errors = []
    ∧ build_file_message (parse_config_file [] ext) ext fn today = "" := by
  refine ⟨rfl, rfl, rfl, rfl, rfl, ?_⟩
  simp [parse_config_file, parse_from, build_file_message, options_message,
        gather_all_options, initState, alookup]

/-- C8: a malformed `SET` line (no `=` at or after position 4) and an option
line met while no type group is open are each logged as a single error with
all other state components unchanged, and parsing continues with the
remaining lines from that error-logged state — one bad line never stops
subsequent lines from being processed. -/
theorem C8_bad_line_recovery (ext : String) (st : ParseState) (line : String)
    (post : List String) :
    (startsWithStr (trimWS line) "SET " = true →
      findCharFrom (trimWS line) '=' 4 = none →
      processLine ext st line
          = { st with errors :=
                st.errors ++ ["Error: Invalid SET command syntax: " ++ trimWS line] }
        ∧ parse_from ext st (line :: post)
          = parse_from ext
              { st with errors :=
                  st.errors ++ ["Error: Invalid SET command syntax: " ++ trimWS line] }
              post)
    ∧ (trimWS line ≠ "" →
      startsWithStr (trimWS line) "SET " = false →
      startsWithStr (trimWS line) "<type " = false →
      startsWithStr (trimWS line) "<prepend>" = false →
      startsWithStr (trimWS line) "<append>" = false →
      startsWithStr (trimWS line) "<raw>" = false →
      st.current_type = "" →
      processLine ext st line
          = { st with errors :=
                st.errors ++ ["Error: Option " ++ trimWS line ++ " is not inside a type block"] }
        ∧ parse_from ext st (line :: post)
          = parse_from ext
              { st with errors :=
                  st.errors ++ ["Error: Option " ++ trimWS line ++ " is not inside a type block"] }
              post) := by
  constructor
  · intro hS hEq
    have hl : trimWS line ≠ "" := by
      intro he
      rw [he] at hS
      exact absurd hS (by decide)
    have hstep : processLine ext st line
        = { st with errors :=
              st.errors ++ ["Error: Invalid SET command syntax: " ++ trimWS line] } := by
      simp only [processLine, if_neg hl, processTrimmed, hS, if_true, hEq]
    refine ⟨hstep, ?_⟩
    show parse_from ext (processLine ext st line) post = _
    rw [hstep]
  · intro hl k1 k2 k3 k4 k5 hc
    have hstep : processLine ext st line
        = { st with errors :=
              st.errors ++ ["Error: Option " ++ trimWS line ++ " is not inside a type block"] } := by
      simp only [processLine, if_neg hl, processTrimmed, k1, k2, k3, k4, k5,
                 Bool.false_eq_true, if_false, if_pos hc]
    refine ⟨hstep, ?_⟩
    show parse_from ext (processLine ext st line) post = _
    rw [hstep]

/-- C8 witness: the malformed line `SET noequals` and the out-of-block option
line `opt` are each logged and skipped, and the following line is still
processed. -/
theorem C8_bad_line_recovery_witness :
    (processLine ".py" initState "SET noequals"
        = { initState with errors :=
              initState.errors ++ ["Error: Invalid SET command syntax: " ++ trimWS "SET noequals"] }
      ∧ parse_from ".py" initState ["SET noequals", "<type .py>"]
        = parse_from ".py"
            { initState with errors :=
                initState.errors
                  ++ ["Error: Invalid SET command syntax: " ++ trimWS "SET noequals"] }
            ["<type .py>"])
    ∧ (processLine ".py" initState "opt"
        = { initState with errors :=
              initState.errors ++ ["Error: Option " ++ trimWS "opt" ++ " is not inside a type block"] }
      ∧ parse_from ".py" initState ["opt", "<type .py>"]
        = parse_from ".py"
            { initState with errors :=
                initState.errors
                  ++ ["Error: Option " ++ trimWS "opt" ++ " is not inside a type block"] }
            ["<type .py>"]) :=
  ⟨(C8_bad_line_recovery ".py" initState "SET noequals" ["<type .py>"]).1
      (by decide) (by decide),
   (C8_bad_line_recovery ".py" initState "opt" ["<type .py>"]).2
      (by decide) (by decide) (by decide) (by decide) (by decide) (by decide) (by decide)⟩

/-- C9: the exact identifiers `<date>` and `<file>` are expanded to their
built-in forms before the variable map is consulted, for every variable map;
a config line `SET date = x` or `SET file = y` stores its value under the key
`<date>` or `<file>`, yet resolving those identifiers still yields the
built-in expansion. -/
theorem C9_builtin_placeholders (vm : List (String × String)) (today fn ext : String)
    (st : ParseState) :
    convert_option vm today fn "<date>" = "DATE: " ++ today
    ∧ convert_option vm today fn "<file>" = "FILE: " ++ fn
    ∧ (processLine ext st "SET date = x").variable_map = aset "<date>" "x" st.variable_map
    ∧ (processLine ext st "SET file = y").variable_map = aset "<file>" "y" st.variable_map
    ∧ convert_option (aset "<date>" "x" vm) today fn "<date>" = "DATE: " ++ today
    ∧ convert_option (aset "<file>" "y" vm) today fn "<file>" = "FILE: " ++ fn := by
  refine ⟨by simp [convert_option], by simp [convert_option], ?_, ?_,
          by simp [convert_option], by simp [convert_option]⟩
  · simp [processLine, processTrimmed, trimWS, isWSChar, tabChar, startsWithStr, startsSeq,
          findCharFrom, cppSubstr, strDrop, strLen, strFront, strBack, sizeSub, dquoteChar]
  · simp [processLine, processTrimmed, trimWS, isWSChar, tabChar, startsWithStr, startsSeq,
          findCharFrom, cppSubstr, strDrop, strLen, strFront, strBack, sizeSub, dquoteChar]

/-- C10: when a trimmed `SET` value or a captured raw line is a single quote
character, the `substr(1, size - 2)` count underflows to `2 ^ 64 - 1` but the
clamped take still yields the empty string: the `SET` line `SET x = "` whose
value is one double quote stores the empty string, and a one-quote raw line
strips to the empty string (which differs from the backslash-n token), so the
original one-character line is emitted unchanged with a newline. -/
theorem C10_single_quote_underflow (ext : String) (st : ParseState) :
    sizeSub 1 2 = 2 ^ 64 - 1
    ∧ strip_quotes_once "\"" = ""
    ∧ strip_quotes_once "'" = ""
    ∧ raw_line_out "\"" = "\"" ++ "\n"
    ∧ raw_line_out "'" = "'" ++ "\n"
    ∧ (processLine ext st "SET x = \"").variable_map = aset "<x>" "" st.variable_map := by
  refine ⟨by decide, by decide, by decide, by decide, by decide, ?_⟩
  simp [processLine, processTrimmed, trimWS, isWSChar, tabChar, startsWithStr, startsSeq,
        findCharFrom, cppSubstr, strDrop, strLen, strFront, strBack, sizeSub, dquoteChar]
